import Mathlib

/-!
# Verification of the libp2pkvs command-driven query session

Shallow embedding of `src/main.rs` (and the error plumbing of `src/errors.rs`)
of the `libp2pkvs` repository: an interactive libp2p Kademlia key-value store
node.  The embedding models

* the command parser / dispatcher `handle_input_line`,
* the stdin branch of the `select!` event loop in `main`,
* the startup sequence of `main` (store seeding, stdin attachment),
* the Kademlia event handler `inject_event` for `KademliaEvent`,

together with the Rust string primitives they rely on
(`str::split(' ')`, `str::to_ascii_uppercase`, `str::as_bytes`,
`std::str::from_utf8`).  Keys, values and all other byte strings are modelled
as `List Nat` (byte values), text as Lean `String` / `List Char`.
-/

namespace Libp2pKvs

/-! ## Rust character and byte-string primitives -/

/-- Model of `u8::to_ascii_uppercase` / `char::to_ascii_uppercase` on a single
character: ASCII lowercase letters are uppercased, everything else is kept. -/
def upperAscii (c : Char) : Char :=
  if 'a' ≤ c ∧ c ≤ 'z' then Char.ofNat (c.toNat - 32) else c

/-- Model of `str::to_ascii_uppercase` on a token, viewed as its character
list (ASCII case folding is per-character and leaves non-ASCII intact). -/
def upperTok (t : List Char) : List Char := t.map upperAscii

/-- UTF-8 encoding of a single character (1–4 bytes); model of the byte
sequence Rust stores for this character inside a `str`. -/
def charUtf8 (c : Char) : List Nat :=
  let n := c.toNat
  if n < 0x80 then [n]
  else if n < 0x800 then [0xC0 + n / 64, 0x80 + n % 64]
  else if n < 0x10000 then [0xE0 + n / 4096, 0x80 + (n / 64) % 64, 0x80 + n % 64]
  else [0xF0 + n / 262144, 0x80 + (n / 4096) % 64, 0x80 + (n / 64) % 64, 0x80 + n % 64]

/-- Model of `str::as_bytes` (and of `Key::new(&str)` /
`Vec::from(&str)`): the UTF-8 bytes of the text. -/
def utf8Encode (cs : List Char) : List Nat := cs.flatMap charUtf8

/-- A UTF-8 continuation byte: `0x80 ≤ b < 0xC0`. -/
def contByte (b : Nat) : Prop := 0x80 ≤ b ∧ b < 0xC0

instance (b : Nat) : Decidable (contByte b) := by
  unfold contByte; infer_instance

/-- Model of `std::str::from_utf8`: strict UTF-8 decoding.  Rejects
continuation bytes in leader position, overlong encodings (leaders
`0xC0`/`0xC1`, and out-of-range second bytes after `0xE0`/`0xF0`),
surrogate code points (`0xED` followed by a second byte `≥ 0xA0`),
code points above `U+10FFFF` (leaders `≥ 0xF5`, and second bytes `≥ 0x90`
after `0xF4`), and truncated sequences. -/
def utf8Decode : List Nat → Option (List Char)
  | [] => some []
  | b :: rest =>
    if b < 0x80 then
      (utf8Decode rest).map (fun cs => Char.ofNat b :: cs)
    else if b < 0xC2 then none
    else if b < 0xE0 then
      match rest with
      | b2 :: rest2 =>
        if contByte b2 then
          (utf8Decode rest2).map
            (fun cs => Char.ofNat ((b - 0xC0) * 64 + (b2 - 0x80)) :: cs)
        else none
      | [] => none
    else if b < 0xF0 then
      match rest with
      | b2 :: b3 :: rest3 =>
        if (if b = 0xE0 then 0xA0 else 0x80) ≤ b2 ∧
           b2 < (if b = 0xED then 0xA0 else 0xC0) ∧ contByte b3 then
          (utf8Decode rest3).map
            (fun cs =>
              Char.ofNat ((b - 0xE0) * 4096 + (b2 - 0x80) * 64 + (b3 - 0x80)) :: cs)
        else none
      | _ => none
    else if b < 0xF5 then
      match rest with
      | b2 :: b3 :: b4 :: rest4 =>
        if (if b = 0xF0 then 0x90 else 0x80) ≤ b2 ∧
           b2 < (if b = 0xF4 then 0x90 else 0xC0) ∧ contByte b3 ∧ contByte b4 then
          (utf8Decode rest4).map
            (fun cs =>
              Char.ofNat
                ((b - 0xF0) * 262144 + (b2 - 0x80) * 4096 + (b3 - 0x80) * 64 +
                  (b4 - 0x80)) :: cs)
        else none
      | _ => none
    else none

/-! ## Tokenization: model of `line.split(' ')`

`str::split(' ')` splits on every occurrence of the single space character:
the empty string yields one empty token, consecutive separators yield empty
tokens, and no other character (tab included) is a separator. -/

/-- Model of Rust `str::split(' ')`, producing the list of tokens (each a
character list) of a line. -/
def splitSp : List Char → List (List Char)
  | [] => [[]]
  | c :: rest =>
    if c = ' ' then [] :: splitSp rest
    else
      match splitSp rest with
      | t :: ts => (c :: t) :: ts
      | [] => [[c]]

theorem splitSp_ne_nil (cs : List Char) : splitSp cs ≠ [] := by
  induction cs with
  | nil => simp [splitSp]
  | cons c rest ih =>
    unfold splitSp
    by_cases h : c = ' '
    · simp [h]
    · simp only [if_neg h]
      cases hs : splitSp rest with
      | nil => simp
      | cons t ts => simp

/-- The first token of `splitSp` is the longest space-free prefix. -/
theorem splitSp_eq_cons (cs : List Char) :
    ∃ ts, splitSp cs = cs.takeWhile (fun c => c != ' ') :: ts := by
  induction cs with
  | nil => exact ⟨[], rfl⟩
  | cons c rest ih =>
    by_cases h : c = ' '
    · refine ⟨splitSp rest, ?_⟩
      simp [splitSp, h, List.takeWhile]
    · obtain ⟨ts, hts⟩ := ih
      refine ⟨ts, ?_⟩
      unfold splitSp
      rw [if_neg h, hts]
      have : (c != ' ') = true := by simpa using h
      simp [List.takeWhile, this]

/-- Splitting a line that starts with a space-free token followed by a
space: the token comes off and the rest is split recursively. -/
theorem splitSp_append_space (xs ys : List Char) (h : ∀ c ∈ xs, c ≠ ' ') :
    splitSp (xs ++ ' ' :: ys) = xs :: splitSp ys := by
  induction xs with
  | nil => simp [splitSp]
  | cons c rest ih =>
    have hc : c ≠ ' ' := h c (by simp)
    have hrest : ∀ c ∈ rest, c ≠ ' ' := fun d hd => h d (by simp [hd])
    show splitSp (c :: (rest ++ ' ' :: ys)) = (c :: rest) :: splitSp ys
    rw [splitSp, if_neg hc, ih hrest]

/-- A line with no space at all is a single token. -/
theorem splitSp_nospace (xs : List Char) (h : ∀ c ∈ xs, c ≠ ' ') :
    splitSp xs = [xs] := by
  induction xs with
  | nil => rfl
  | cons c rest ih =>
    have hc : c ≠ ' ' := h c (by simp)
    have hrest : ∀ c ∈ rest, c ≠ ' ' := fun d hd => h d (by simp [hd])
    rw [splitSp, if_neg hc, ih hrest]

/-! ## Data model: records, quorum, Kademlia requests

Models of the `libp2p::kad` types the source uses.  Peer identities and
query ids are abstracted as `Nat`; expiry instants as `Nat`. -/

/-- Model of `libp2p::kad::Quorum`. The source only ever uses `Quorum::One`. -/
inductive Quorum
  | one
  | majority
  | all
  | n (k : Nat)
deriving DecidableEq

/-- Model of `libp2p::kad::Record`: key and value bytes plus optional
publisher identity and optional expiry instant. -/
structure Record where
  key : List Nat
  value : List Nat
  publisher : Option Nat
  expires : Option Nat
deriving DecidableEq

/-- Model of `libp2p::kad::store::Error`, the local record store's
rejection reasons. -/
inductive StoreError
  | maxRecords
  | maxProvidedKeys
  | valueTooLarge
deriving DecidableEq

/-- A request issued to the Kademlia overlay handle: one constructor per
method of `Kademlia` that `handle_input_line` can invoke. -/
inductive KadRequest
  | getRecord (key : List Nat) (q : Quorum)
  | getProviders (key : List Nat)
  | putRecord (r : Record) (q : Quorum)
  | startProviding (key : List Nat)
deriving DecidableEq

/-- Abstraction of the `Kademlia<MemoryStore>` collaborator at the boundary
`handle_input_line` uses: `put_record` and `start_providing` return
`Result<QueryId, store::Error>` (the local store may reject the write
before it reaches the network); `get_record` and `get_providers` are
infallible and are therefore not represented as functions. -/
structure KademliaModel where
  putRecordResult : Record → Quorum → Except StoreError Nat
  startProvidingResult : List Nat → Except StoreError Nat

/-- A Kademlia collaborator whose local store accepts every write. -/
def okKad : KademliaModel :=
  { putRecordResult := fun _ _ => Except.ok 0
    startProvidingResult := fun _ => Except.ok 0 }

/-- A Kademlia collaborator whose local store rejects every write
(e.g. a store at its `max_records` / `max_provided_keys` capacity). -/
def rejectKad : KademliaModel :=
  { putRecordResult := fun _ _ => Except.error StoreError.maxRecords
    startProvidingResult := fun _ => Except.error StoreError.maxProvidedKeys }

/-! ## `handle_input_line` -/

/-- How one call to `handle_input_line` terminates:
`ok` models `Ok(())`; `fatalErr` models an `Err(_)` return value (built by
`ok_or(...)?` on a missing token), which the `?` at the call site in `main`
propagates out of the event loop; `crash` models a Rust panic raised by
`.expect(...)` on a store rejection. -/
inductive LineOutcome
  | ok
  | fatalErr (msg : String)
  | crash (msg : String)
deriving DecidableEq

/-- Observable behaviour of one `handle_input_line` call: how it returned,
the requests it issued to the Kademlia handle, and the diagnostic lines it
wrote to stderr (`eprintln!`). -/
structure LineResult where
  outcome : LineOutcome
  requests : List KadRequest
  diagnostics : List String
deriving DecidableEq

/-- The diagnostic printed by the default arm of `handle_input_line`. -/
def unrecognizedDiag : String := "expected GET, GET_PROVIDERS, PUT or PUT_PROVIDER"

/-- The body of `handle_input_line` after tokenization: `toks` is the token
sequence produced by `line.split(' ')` (so it is never empty; the `[]` case
mirrors the unreachable `ok_or("Could not parse input string")?`).  The
first token is ASCII-uppercased and matched against the four verbs;
remaining tokens are consumed left-to-right.  `PUT` / `PUT_PROVIDER` call
the store-backed methods and `.expect(...)` their results. -/
def handleTokens (kad : KademliaModel) (toks : List (List Char)) : LineResult :=
  match toks with
  | [] => ⟨LineOutcome.fatalErr "Could not parse input string", [], []⟩
  | verb :: rest =>
    if upperTok verb = "GET".data then
      match rest with
      | [] => ⟨LineOutcome.fatalErr "Expected key", [], []⟩
      | k :: _ => ⟨LineOutcome.ok, [KadRequest.getRecord (utf8Encode k) Quorum.one], []⟩
    else if upperTok verb = "GET_PROVIDERS".data then
      match rest with
      | [] => ⟨LineOutcome.fatalErr "Expected key", [], []⟩
      | k :: _ => ⟨LineOutcome.ok, [KadRequest.getProviders (utf8Encode k)], []⟩
    else if upperTok verb = "PUT".data then
      match rest with
      | [] => ⟨LineOutcome.fatalErr "Expected key", [], []⟩
      | k :: rest2 =>
        match rest2 with
        | [] => ⟨LineOutcome.fatalErr "Expected value", [], []⟩
        | v :: _ =>
          let record : Record :=
            { key := utf8Encode k, value := utf8Encode v
              publisher := none, expires := none }
          match kad.putRecordResult record Quorum.one with
          | Except.ok _ =>
            ⟨LineOutcome.ok, [KadRequest.putRecord record Quorum.one], []⟩
          | Except.error _ =>
            ⟨LineOutcome.crash "Failed to store record locally.",
              [KadRequest.putRecord record Quorum.one], []⟩
    else if upperTok verb = "PUT_PROVIDER".data then
      match rest with
      | [] => ⟨LineOutcome.fatalErr "Expected key", [], []⟩
      | k :: _ =>
        match kad.startProvidingResult (utf8Encode k) with
        | Except.ok _ =>
          ⟨LineOutcome.ok, [KadRequest.startProviding (utf8Encode k)], []⟩
        | Except.error _ =>
          ⟨LineOutcome.crash "Failed to start providing key",
            [KadRequest.startProviding (utf8Encode k)], []⟩
    else ⟨LineOutcome.ok, [], [unrecognizedDiag]⟩

/-- Model of `handle_input_line(kademlia, line)`: tokenize the line with
`line.split(' ')` and dispatch on the tokens. -/
def handle_input_line (kad : KademliaModel) (line : String) : LineResult :=
  handleTokens kad (splitSp line.data)

/-- The first whitespace-delimited token of a line under the source's
tokenization (`split(' ')`). -/
def firstTok (line : String) : List Char := (splitSp line.data).headD []

/-! ## The event loop's stdin branch -/

/-- Session-level fate of one serviced stdin item:
`running` — the `loop` continues; `terminatedErr` — `handle_input_line`
returned `Err(_)` and the `?` in `main` propagated it, ending the process;
`terminatedCrash` — a panic (`.expect`) aborted the process. -/
inductive SessionStatus
  | running
  | terminatedErr (msg : String)
  | terminatedCrash (msg : String)
deriving DecidableEq

/-- Model of the stdin branch of the `select!` loop in `main`
(`line = stdin.select_next_some() => handle_input_line(..., line.expect("Stdin not to close"))?`).

The stdin stream is `io::BufReader::new(io::stdin()).lines().fuse()`, a
fused stream of `io::Result<String>` items, so the item the branch can
observe is modelled as `Option (Except String String)`:
* `none` — the stream has terminated (stdin reached end-of-file).  A
  `select_next_some()` future over a terminated fused stream never
  resolves and `select!` treats the branch as disabled, so the loop simply
  keeps servicing the swarm branch: the session stays `running` and
  nothing is serviced.
* `some (Except.error e)` — the stream yielded `Err(io_error)`;
  `.expect("Stdin not to close")` panics.
* `some (Except.ok line)` — a line was read; `handle_input_line` runs and
  its `Result` is propagated by `?`. -/
def sessionStepStdin (kad : KademliaModel) (item : Option (Except String String)) :
    SessionStatus × List KadRequest × List String :=
  match item with
  | none => (SessionStatus.running, [], [])
  | some (Except.error _) => (SessionStatus.terminatedCrash "Stdin not to close", [], [])
  | some (Except.ok line) =>
    let r := handle_input_line kad line
    match r.outcome with
    | LineOutcome.ok => (SessionStatus.running, r.requests, r.diagnostics)
    | LineOutcome.fatalErr m => (SessionStatus.terminatedErr m, r.requests, r.diagnostics)
    | LineOutcome.crash m => (SessionStatus.terminatedCrash m, r.requests, r.diagnostics)

/-! ## Startup (`main`, swarm construction) -/

/-- The record seeded into the `MemoryStore` at swarm construction:
`Record::new(Key::new(&"andrew"), Vec::from("55"))` (publisher and expiry
unset). -/
def seedRecord : Record :=
  { key := utf8Encode "andrew".data, value := utf8Encode "55".data
    publisher := none, expires := none }

/-- Observable outcome of the startup sequence of `main`. -/
structure StartupResult where
  entersEventLoop : Bool
  storeSeeded : Bool
  attachesStdin : Bool
deriving DecidableEq

/-- Model of the startup portion of `main` (swarm construction through the
start of the event loop).  `main` never inspects the process arguments, so
`_args` is unused; the seeding call is `let _ = store.put(...)`, which
discards success and failure alike; the stdin line stream is constructed
unconditionally; startup then proceeds into the `loop`.  `storePut`
abstracts `MemoryStore::put`. -/
def mainStartup (_args : List String) (storePut : Record → Except StoreError Unit) :
    StartupResult :=
  match storePut seedRecord with
  | Except.ok _ => { entersEventLoop := true, storeSeeded := true, attachesStdin := true }
  | Except.error _ => { entersEventLoop := true, storeSeeded := false, attachesStdin := true }

/-- A `MemoryStore::put` that accepts the record. -/
def okStorePut : Record → Except StoreError Unit := fun _ => Except.ok ()

/-- A `MemoryStore::put` that rejects the record. -/
def failStorePut : Record → Except StoreError Unit :=
  fun _ => Except.error StoreError.maxRecords

/-! ## Kademlia events and `inject_event` -/

/-- Model of `libp2p::kad::PeerRecord`: a record together with the peer it
came from (`None` when it came from the local store). -/
structure PeerRecord where
  peer : Option Nat
  record : Record
deriving DecidableEq

/-- Model of `libp2p::kad::QueryResult` as consumed by `inject_event`:
one constructor per arm the source matches, with the payload fields the
source reads.  The remaining variants (`Bootstrap`, `GetClosestPeers`,
`RepublishProvider`, `RepublishRecord`), which the source collapses into
the catch-all `e => println!("Other Event: {:?}", e)` arm, are modelled by
`other` carrying their debug rendering. -/
inductive QueryResult
  | getProvidersOk (key : List Nat) (providers : List Nat)
  | getProvidersErr (err : String)
  | getRecordOk (records : List PeerRecord)
  | getRecordErr (err : String)
  | putRecordOk (key : List Nat)
  | putRecordErr (err : String)
  | startProvidingOk (key : List Nat)
  | startProvidingErr (err : String)
  | other (desc : String)
deriving DecidableEq

/-- Model of `libp2p::kad::KademliaEvent`: the variants the source's
exhaustive match covers (payload fields the source ignores with `..` are
omitted; the `InboundRequest` payload keeps its debug rendering). -/
inductive KademliaEvent
  | outboundQueryCompleted (result : QueryResult)
  | inboundRequest (request : String)
  | routingUpdated
  | unroutablePeer
  | routablePeer
  | pendingRoutablePeer
deriving DecidableEq

/-- One output line of `inject_event`: a constructor per `println!` /
`eprintln!` statement in the handler, carrying the data interpolated into
it (UTF-8 payloads appear already decoded, as the source prints the
`&str` produced by `from_utf8(..).unwrap()`). -/
inductive OutLine
  | getProvidersHeader
  | providesKey (peer : Nat) (key : String)
  | failedGetProviders (err : String)
  | gotRecord (key value : String) (peer : Option Nat)
  | failedGetRecord (err : String)
  | putRecordSuccess (key : String)
  | failedPutRecord (err : String)
  | putProviderSuccess (key : String)
  | failedPutProvider (err : String)
  | otherEvent (desc : String)
  | inboundRequestLine (request : String)
  | routingUpdatedLine
  | unroutablePeerLine
  | routablePeerLine
  | pendingRoutablePeerLine
deriving DecidableEq

/-- Observable behaviour of one `inject_event` call: the lines it printed
(in order, stdout and stderr merged) and whether an `unwrap()` panicked.
Lines printed before the panicking statement are kept. -/
structure HandlerResult where
  lines : List OutLine
  crashed : Bool
deriving DecidableEq

/-- The `for peer in ok.providers` loop of the `GetProviders(Ok(_))` arm:
each iteration prints one line after `from_utf8(ok.key.as_ref()).unwrap()`,
so the first iteration panics when the key is not valid UTF-8. -/
def providersLoop (key : List Nat) : List Nat → HandlerResult
  | [] => ⟨[], false⟩
  | p :: ps =>
    match utf8Decode key with
    | none => ⟨[], true⟩
    | some k =>
      let r := providersLoop key ps
      ⟨OutLine.providesKey p (String.mk k) :: r.lines, r.crashed⟩

/-- The `for peer_record in ok.records` loop of the `GetRecord(Ok(_))` arm:
each iteration unwraps the UTF-8 decoding of the record's key and value and
prints one line; it panics at the first record whose key or value is not
valid UTF-8. -/
def recordsLoop : List PeerRecord → HandlerResult
  | [] => ⟨[], false⟩
  | pr :: prs =>
    match utf8Decode pr.record.key, utf8Decode pr.record.value with
    | some k, some v =>
      let r := recordsLoop prs
      ⟨OutLine.gotRecord (String.mk k) (String.mk v) pr.peer :: r.lines, r.crashed⟩
    | _, _ => ⟨[], true⟩

/-- Model of `NetworkBehaviourEventProcess<KademliaEvent>::inject_event`:
the exhaustive match over `KademliaEvent` / `QueryResult` in the source,
including the `from_utf8(..).unwrap()` calls in the four success arms. -/
def inject_event : KademliaEvent → HandlerResult
  | KademliaEvent.outboundQueryCompleted qr =>
    match qr with
    | QueryResult.getProvidersOk key provs =>
      let r := providersLoop key provs
      ⟨OutLine.getProvidersHeader :: r.lines, r.crashed⟩
    | QueryResult.getProvidersErr e => ⟨[OutLine.failedGetProviders e], false⟩
    | QueryResult.getRecordOk records => recordsLoop records
    | QueryResult.getRecordErr e => ⟨[OutLine.failedGetRecord e], false⟩
    | QueryResult.putRecordOk key =>
      match utf8Decode key with
      | some k => ⟨[OutLine.putRecordSuccess (String.mk k)], false⟩
      | none => ⟨[], true⟩
    | QueryResult.putRecordErr e => ⟨[OutLine.failedPutRecord e], false⟩
    | QueryResult.startProvidingOk key =>
      match utf8Decode key with
      | some k => ⟨[OutLine.putProviderSuccess (String.mk k)], false⟩
      | none => ⟨[], true⟩
    | QueryResult.startProvidingErr e => ⟨[OutLine.failedPutProvider e], false⟩
    | QueryResult.other d => ⟨[OutLine.otherEvent d], false⟩
  | KademliaEvent.inboundRequest req => ⟨[OutLine.inboundRequestLine req], false⟩
  | KademliaEvent.routingUpdated => ⟨[OutLine.routingUpdatedLine], false⟩
  | KademliaEvent.unroutablePeer => ⟨[OutLine.unroutablePeerLine], false⟩
  | KademliaEvent.routablePeer => ⟨[OutLine.routablePeerLine], false⟩
  | KademliaEvent.pendingRoutablePeer => ⟨[OutLine.pendingRoutablePeerLine], false⟩

/-- Whether every byte payload an event's handling actually unwraps decodes
as UTF-8: the exact condition under which `inject_event` does not panic
(`getProvidersOk` only decodes its key when the provider set is non-empty;
the error, routing and catch-all arms decode nothing). -/
def eventPayloadsDecode : KademliaEvent → Bool
  | KademliaEvent.outboundQueryCompleted qr =>
    match qr with
    | QueryResult.getProvidersOk key provs =>
      provs.isEmpty || (utf8Decode key).isSome
    | QueryResult.getRecordOk records =>
      records.all fun pr =>
        (utf8Decode pr.record.key).isSome && (utf8Decode pr.record.value).isSome
    | QueryResult.putRecordOk key => (utf8Decode key).isSome
    | QueryResult.startProvidingOk key => (utf8Decode key).isSome
    | _ => true
  | _ => true

/-! ## Helper lemmas -/

theorem data_mk (cs : List Char) : (String.mk cs).data = cs := rfl

/-- When `providersLoop` panics: only a non-empty provider set with a
non-UTF-8 key reaches (and fails) the `unwrap`. -/
theorem providersLoop_crashed (key : List Nat) (ps : List Nat) :
    (providersLoop key ps).crashed = (!ps.isEmpty && (utf8Decode key).isNone) := by
  induction ps with
  | nil => simp [providersLoop]
  | cons p ps ih =>
    cases h : utf8Decode key with
    | none => simp [providersLoop, h]
    | some k => simp [providersLoop, h, ih]

/-- When `recordsLoop` panics: some record's key or value fails to decode. -/
theorem recordsLoop_crashed (rs : List PeerRecord) :
    (recordsLoop rs).crashed =
      rs.any (fun pr =>
        (utf8Decode pr.record.key).isNone || (utf8Decode pr.record.value).isNone) := by
  induction rs with
  | nil => simp [recordsLoop]
  | cons pr prs ih =>
    cases hk : utf8Decode pr.record.key with
    | none => simp [recordsLoop, hk]
    | some k =>
      cases hv : utf8Decode pr.record.value with
      | none => simp [recordsLoop, hk, hv]
      | some v => simp [recordsLoop, hk, hv, ih]

theorem recordsAny_eq_not_all (rs : List PeerRecord) :
    (rs.any fun pr =>
        (utf8Decode pr.record.key).isNone || (utf8Decode pr.record.value).isNone) =
      !(rs.all fun pr =>
        (utf8Decode pr.record.key).isSome && (utf8Decode pr.record.value).isSome) := by
  induction rs with
  | nil => rfl
  | cons pr prs ih =>
    cases hk : utf8Decode pr.record.key <;> cases hv : utf8Decode pr.record.value <;>
      simp [hk, hv, ih]

/-! ## Claim C1 -/

/-- C1, as stated, is false: an empty line is indeed a non-fatal diagnostic,
but a recognized verb with a missing required argument is fatal.  At the
concrete input line `GET`, `handle_input_line` returns
`Err("Expected key")`, which the `?` at the call site in `main` propagates,
terminating the session instead of continuing to accept input. -/
theorem c1_counterexample :
    (sessionStepStdin okKad (some (Except.ok "GET"))).1 =
      SessionStatus.terminatedErr "Expected key" ∧
    (sessionStepStdin okKad (some (Except.ok "GET"))).1 ≠ SessionStatus.running := by
  decide

/-- C1 (amended): an empty line yields one diagnostic on the error channel,
zero Overlay requests, and the session continues; but a recognized verb
(`GET`/`GET_PROVIDERS`/`PUT_PROVIDER` missing its key, or `PUT` missing its
key or value, in any letter case) issues zero Overlay requests and returns
an error that the main loop propagates, terminating the session. -/
theorem c1_missing_arg_fatal (kad : KademliaModel) (w w2 k : List Char)
    (hwns : ∀ c ∈ w, c ≠ ' ') (hw2ns : ∀ c ∈ w2, c ≠ ' ') (hkns : ∀ c ∈ k, c ≠ ' ')
    (hw : upperTok w = "GET".data ∨ upperTok w = "GET_PROVIDERS".data ∨
      upperTok w = "PUT_PROVIDER".data)
    (hw2 : upperTok w2 = "PUT".data) :
    sessionStepStdin kad (some (Except.ok "")) =
      (SessionStatus.running, [], [unrecognizedDiag]) ∧
    sessionStepStdin kad (some (Except.ok (String.mk w))) =
      (SessionStatus.terminatedErr "Expected key", [], []) ∧
    sessionStepStdin kad (some (Except.ok (String.mk w2))) =
      (SessionStatus.terminatedErr "Expected key", [], []) ∧
    sessionStepStdin kad (some (Except.ok (String.mk (w2 ++ ' ' :: k)))) =
      (SessionStatus.terminatedErr "Expected value", [], []) := by
  refine ⟨rfl, ?_, ?_, ?_⟩
  · rcases hw with h | h | h <;>
      simp [sessionStepStdin, handle_input_line, data_mk, splitSp_nospace _ hwns,
        handleTokens, h]
  · simp [sessionStepStdin, handle_input_line, data_mk, splitSp_nospace _ hw2ns,
      handleTokens, hw2]
  · have hsplit : splitSp (w2 ++ ' ' :: k) = [w2, k] := by
      rw [splitSp_append_space _ _ hw2ns, splitSp_nospace _ hkns]
    simp [sessionStepStdin, handle_input_line, data_mk, hsplit, handleTokens, hw2]

/-- Witness for C1's amended theorem at `GET`, `PUT` and `PUT x`. -/
theorem c1_missing_arg_fatal_witness :
    sessionStepStdin okKad (some (Except.ok "")) =
      (SessionStatus.running, [], [unrecognizedDiag]) ∧
    sessionStepStdin okKad (some (Except.ok (String.mk "GET".data))) =
      (SessionStatus.terminatedErr "Expected key", [], []) ∧
    sessionStepStdin okKad (some (Except.ok (String.mk "PUT".data))) =
      (SessionStatus.terminatedErr "Expected key", [], []) ∧
    sessionStepStdin okKad (some (Except.ok (String.mk ("PUT".data ++ ' ' :: "x".data)))) =
      (SessionStatus.terminatedErr "Expected value", [], []) :=
  c1_missing_arg_fatal okKad "GET".data "PUT".data "x".data
    (by decide) (by decide) (by decide) (Or.inl (by decide)) (by decide)

/-! ## Claim C2 -/

/-- C2, as stated, is false: when the local store rejects a `PUT` record,
the failure is not a reported, non-fatal error — `.expect("Failed to store
record locally.")` panics and the event loop does not continue.  Concrete
input: line `PUT a b` against a collaborator whose store rejects the
write. -/
theorem c2_counterexample :
    (sessionStepStdin rejectKad (some (Except.ok "PUT a b"))).1 =
      SessionStatus.terminatedCrash "Failed to store record locally." ∧
    (sessionStepStdin rejectKad (some (Except.ok "PUT a b"))).1 ≠
      SessionStatus.running := by
  decide

/-- C2 (amended): when the Overlay collaborator rejects the local issuance
of a `PUT` record or a `PUT_PROVIDER` advertisement, `handle_input_line`
panics (messages `Failed to store record locally.` / `Failed to start
providing key`), terminating the session rather than reporting a non-fatal
error. -/
theorem c2_local_rejection_panics (kad : KademliaModel) (k v : List Char)
    (rest : List (List Char)) (e e2 : StoreError)
    (hput : kad.putRecordResult
      { key := utf8Encode k, value := utf8Encode v, publisher := none, expires := none }
      Quorum.one = Except.error e)
    (hprov : kad.startProvidingResult (utf8Encode k) = Except.error e2) :
    (handleTokens kad ("PUT".data :: k :: v :: rest)).outcome =
      LineOutcome.crash "Failed to store record locally." ∧
    (handleTokens kad ("PUT_PROVIDER".data :: k :: rest)).outcome =
      LineOutcome.crash "Failed to start providing key" := by
  constructor
  · have h : upperTok "PUT".data = "PUT".data := by decide
    simp [handleTokens, h, hput]
  · have h : upperTok "PUT_PROVIDER".data = "PUT_PROVIDER".data := by decide
    simp [handleTokens, h, hprov]

/-- Witness for C2's amended theorem against the rejecting store. -/
theorem c2_local_rejection_panics_witness :
    (handleTokens rejectKad ("PUT".data :: "a".data :: "b".data :: [])).outcome =
      LineOutcome.crash "Failed to store record locally." ∧
    (handleTokens rejectKad ("PUT_PROVIDER".data :: "a".data :: [])).outcome =
      LineOutcome.crash "Failed to start providing key" :=
  c2_local_rejection_panics rejectKad "a".data "b".data []
    StoreError.maxRecords StoreError.maxProvidedKeys rfl rfl

/-! ## Claim C3 -/

/-- C3, as stated, is false: `main` never inspects the process arguments.
With argument `client` the Record Store is still pre-seeded (the claim says
only server mode pre-seeds), and with no argument (server mode per the
claim) the operator command-input source is still attached. -/
theorem c3_counterexample :
    (mainStartup ["client"] okStorePut).storeSeeded = true ∧
    (mainStartup [] okStorePut).attachesStdin = true := by
  decide

/-- C3 (amended): the process has no mode-selecting startup argument: its
startup behaviour is the same for every argument list, and in every
invocation it both (attempts to) pre-seed the Record Store and attaches the
operator command-input source before entering the event loop. -/
theorem c3_args_ignored (args : List String)
    (storePut : Record → Except StoreError Unit) :
    mainStartup args storePut = mainStartup [] storePut ∧
    (mainStartup args storePut).attachesStdin = true ∧
    (mainStartup args storePut).entersEventLoop = true := by
  cases h : storePut seedRecord <;> simp [mainStartup, h]

/-! ## Claim C4 -/

/-- C4, as stated, is false: a pre-seeding failure at startup is not fatal.
With a store that rejects the seed record, startup still enters the event
loop (the seeding call is `let _ = store.put(...)`, which discards the
error). -/
theorem c4_counterexample :
    (mainStartup [] failStorePut).entersEventLoop = true ∧
    (mainStartup [] failStorePut).storeSeeded = false := by
  decide

/-- C4 (amended): if pre-seeding the Record Store at startup fails, the
failure is silently discarded: startup proceeds into the running event
loop with the store unseeded. -/
theorem c4_seed_failure_ignored (args : List String)
    (storePut : Record → Except StoreError Unit) (e : StoreError)
    (h : storePut seedRecord = Except.error e) :
    mainStartup args storePut =
      { entersEventLoop := true, storeSeeded := false, attachesStdin := true } := by
  simp [mainStartup, h]

/-- Witness for C4's amended theorem with the rejecting store. -/
theorem c4_seed_failure_ignored_witness :
    mainStartup [] failStorePut =
      { entersEventLoop := true, storeSeeded := false, attachesStdin := true } :=
  c4_seed_failure_ignored [] failStorePut StoreError.maxRecords rfl

/-! ## Claim C5 -/

/-- C5, as stated, is false: the Overlay event handler is not total over
payload bytes.  A successful `PutRecord` completion whose key is the single
non-UTF-8 byte `0xFF` makes `from_utf8(key.as_ref()).unwrap()` panic,
terminating the session. -/
theorem c5_counterexample :
    (inject_event
      (KademliaEvent.outboundQueryCompleted (QueryResult.putRecordOk [255]))).crashed =
      true := by
  decide

/-- C5 (amended): the handler matches every event variant, but the four
success arms unwrap UTF-8 decoding of the payload bytes: handling completes
without panicking exactly when every byte payload the variant actually
decodes is valid UTF-8 (error, inbound-request, routing and catch-all
variants never panic; a provider-lookup success with an empty provider set
never decodes its key). -/
theorem c5_crash_iff_invalid_utf8 (e : KademliaEvent) :
    (inject_event e).crashed = false ↔ eventPayloadsDecode e = true := by
  cases e with
  | outboundQueryCompleted qr =>
    cases qr with
    | getProvidersOk key provs =>
      cases provs <;> cases h : utf8Decode key <;>
        simp [inject_event, eventPayloadsDecode, providersLoop_crashed, h]
    | getRecordOk records =>
      simp [inject_event, eventPayloadsDecode, recordsLoop_crashed, recordsAny_eq_not_all]
    | putRecordOk key =>
      cases h : utf8Decode key <;> simp [inject_event, eventPayloadsDecode, h]
    | startProvidingOk key =>
      cases h : utf8Decode key <;> simp [inject_event, eventPayloadsDecode, h]
    | getProvidersErr e => simp [inject_event, eventPayloadsDecode]
    | getRecordErr e => simp [inject_event, eventPayloadsDecode]
    | putRecordErr e => simp [inject_event, eventPayloadsDecode]
    | startProvidingErr e => simp [inject_event, eventPayloadsDecode]
    | other d => simp [inject_event, eventPayloadsDecode]
  | inboundRequest req => simp [inject_event, eventPayloadsDecode]
  | routingUpdated => simp [inject_event, eventPayloadsDecode]
  | unroutablePeer => simp [inject_event, eventPayloadsDecode]
  | routablePeer => simp [inject_event, eventPayloadsDecode]
  | pendingRoutablePeer => simp [inject_event, eventPayloadsDecode]

/-! ## Claim C6 -/

/-- C6, as stated, is false: the tokenizer does not split on general
whitespace.  A tab-separated `GET\ta` parses differently from `GET a` (the
tab is not a separator, so the verb is unrecognized), and the double-spaced
`GET  a` also parses differently (the run of spaces yields an empty key
token). -/
theorem c6_counterexample :
    handle_input_line okKad "GET\ta" ≠ handle_input_line okKad "GET a" ∧
    handle_input_line okKad "GET  a" ≠ handle_input_line okKad "GET a" := by
  decide

/-- C6 (amended): the parser tokenizes by splitting on the single space
character only (an empty line gives one empty token; a space-free prefix
followed by a space splits off as one token; a space-free line is a single
token), the first token ASCII-case-folded selects the command kind (two
verbs equal up to ASCII case dispatch identically), and the remaining
tokens are consumed left-to-right; tab- or multi-space-separated forms are
not equivalent to the single-space form. -/
theorem c6_single_space_tokenization (kad : KademliaModel) (w w2 : List Char)
    (rest : List (List Char)) (xs ys : List Char) (line : String)
    (hww : upperTok w = upperTok w2) (hxs : ∀ c ∈ xs, c ≠ ' ') :
    handle_input_line kad line = handleTokens kad (splitSp line.data) ∧
    splitSp (xs ++ ' ' :: ys) = xs :: splitSp ys ∧
    splitSp xs = [xs] ∧
    handleTokens kad (w :: rest) = handleTokens kad (w2 :: rest) := by
  refine ⟨rfl, splitSp_append_space _ _ hxs, splitSp_nospace _ hxs, ?_⟩
  simp only [handleTokens, hww]

/-- Witness for C6's amended theorem: `gEt` dispatches as `GET`. -/
theorem c6_single_space_tokenization_witness :
    handle_input_line okKad "gEt a" = handleTokens okKad (splitSp "gEt a".data) ∧
    splitSp ("PUT".data ++ ' ' :: "k v".data) = "PUT".data :: splitSp "k v".data ∧
    splitSp "PUT".data = ["PUT".data] ∧
    handleTokens okKad ("gEt".data :: ["a".data]) =
      handleTokens okKad ("GET".data :: ["a".data]) :=
  c6_single_space_tokenization okKad "gEt".data "GET".data ["a".data]
    "PUT".data "k v".data "gEt a" (by decide) (by decide)

/-! ## Claim C7 -/

/-- C7 (confirmed): for every input line whose first token is not one of
the four verbs under ASCII case folding, `handle_input_line` takes the
default arm: it returns `Ok(())` (the session continues), emits exactly the
one diagnostic line on stderr, and issues zero requests to the Overlay. -/
theorem c7_unrecognized_verb (kad : KademliaModel) (line : String)
    (h : upperTok (firstTok line) ∉
      ["GET".data, "PUT".data, "GET_PROVIDERS".data, "PUT_PROVIDER".data]) :
    handle_input_line kad line = ⟨LineOutcome.ok, [], [unrecognizedDiag]⟩ := by
  unfold handle_input_line
  cases hs : splitSp line.data with
  | nil => exact absurd hs (splitSp_ne_nil _)
  | cons v ts =>
    rw [firstTok, hs] at h
    simp only [List.headD_cons, List.mem_cons, List.mem_singleton, not_or,
      List.not_mem_nil] at h
    obtain ⟨h1, h2, h3, h4, -⟩ := h
    simp only [handleTokens, if_neg h1, if_neg h3, if_neg h2, if_neg h4]

/-- Witness for C7 at the line `hello world`. -/
theorem c7_unrecognized_verb_witness :
    handle_input_line okKad "hello world" =
      ⟨LineOutcome.ok, [], [unrecognizedDiag]⟩ :=
  c7_unrecognized_verb okKad "hello world" (by decide)

/-! ## Claim C8 -/

/-- C8 (confirmed): every well-formed `PUT` command (first token
case-folding to `PUT`, at least a key and a value token) constructs a
`Record` with `publisher := None` and `expires := None` and issues the
write with `Quorum::One` — whether or not the local store then accepts
it. -/
theorem c8_put_record_quorum_one (kad : KademliaModel) (w k v : List Char)
    (rest : List (List Char)) (hw : upperTok w = "PUT".data) :
    (handleTokens kad (w :: k :: v :: rest)).requests =
      [KadRequest.putRecord
        { key := utf8Encode k, value := utf8Encode v, publisher := none, expires := none }
        Quorum.one] := by
  simp only [handleTokens, hw, if_true, if_false]
  cases kad.putRecordResult
      { key := utf8Encode k, value := utf8Encode v, publisher := none, expires := none }
      Quorum.one <;> rfl

/-- Witness for C8 at the tokens of `put k v` (lower-case verb). -/
theorem c8_put_record_quorum_one_witness :
    (handleTokens okKad ("put".data :: "k".data :: "v".data :: [])).requests =
      [KadRequest.putRecord
        { key := utf8Encode "k".data, value := utf8Encode "v".data
          publisher := none, expires := none }
        Quorum.one] :=
  c8_put_record_quorum_one okKad "put".data "k".data "v".data [] (by decide)

/-! ## Claim C9 -/

/-- C9 (confirmed): for a `PUT` line whose key token `k` is space-free and
whose remaining text is `u`, the stored key is the UTF-8 bytes of `k` and
the stored value is the UTF-8 bytes of the single token following the key —
`u` truncated at its first space — and all further tokens are ignored. -/
theorem c9_put_value_single_token (kad : KademliaModel) (k u : List Char)
    (hk : ∀ c ∈ k, c ≠ ' ') :
    (handle_input_line kad (String.mk ("PUT".data ++ ' ' :: (k ++ ' ' :: u)))).requests =
      [KadRequest.putRecord
        { key := utf8Encode k
          value := utf8Encode (u.takeWhile (fun c => c != ' '))
          publisher := none, expires := none }
        Quorum.one] := by
  obtain ⟨ts, hts⟩ := splitSp_eq_cons u
  have hsplit : splitSp ("PUT".data ++ ' ' :: (k ++ ' ' :: u)) =
      "PUT".data :: k :: u.takeWhile (fun c => c != ' ') :: ts := by
    rw [splitSp_append_space "PUT".data (k ++ ' ' :: u) (by decide),
      splitSp_append_space k u hk, hts]
  unfold handle_input_line
  rw [data_mk, hsplit]
  simp only [handleTokens, if_true, if_false]
  cases kad.putRecordResult
      { key := utf8Encode k, value := utf8Encode (u.takeWhile (fun c => c != ' '))
        publisher := none, expires := none }
      Quorum.one <;> rfl

/-- Witness for C9 at `PUT key a b`: the value is truncated to `a` and the
trailing token `b` is ignored. -/
theorem c9_put_value_single_token_witness :
    (handle_input_line okKad
        (String.mk ("PUT".data ++ ' ' :: ("key".data ++ ' ' :: "a b".data)))).requests =
      [KadRequest.putRecord
        { key := utf8Encode "key".data, value := utf8Encode "a".data
          publisher := none, expires := none }
        Quorum.one] :=
  c9_put_value_single_token okKad "key".data "a b".data (by decide)

/-! ## Claim C10 -/

/-- C10: the claimed behaviour (panic at stdin end-of-file) is what the
`.expect("Stdin not to close")` message documents as the author's intent,
but the code does not implement it.  The stdin source is a fused stream of
`io::Result<String>` lines: at end-of-file the stream terminates and the
`select_next_some()` branch of the `select!` loop is permanently disabled
(a `SelectNextSome` future over a terminated fused stream never resolves),
so the loop keeps running and keeps servicing Overlay/Discovery events;
the `expect` can only panic on a stdin read *error*, which arrives as an
`Err` item, never at end-of-file. -/
theorem c10_eof_continues (kad : KademliaModel) (ioerr : String) :
    sessionStepStdin kad none = (SessionStatus.running, [], []) ∧
    sessionStepStdin kad (some (Except.error ioerr)) =
      (SessionStatus.terminatedCrash "Stdin not to close", [], []) :=
  ⟨rfl, rfl⟩

end Libp2pKvs
